import Mathlib

/-!
Verification of the Roostoo trading bot core (`trading_bot.py`).

The Python source is shallowly embedded over exact rational arithmetic:
mutable objects become explicit state records, dictionaries become
association lists over `String` keys, and each method becomes a pure
function from the pre-state (plus its arguments) to the post-state.
All monetary quantities are `ℚ`; `math.floor` is `Int.floor`.
-/

/-! ## Configuration constants (trading_bot.py lines 50-80) -/

def POSITION_SIZE_PCT : ℚ := 5/100

def MAX_PORTFOLIO_RISK : ℚ := 1/2

def BUYING_COMMISSION : ℚ := 1/1000

def SELLING_COMMISSION : ℚ := 1/1000

def MAX_OPEN_TRADES : ℕ := 5

def RSI_OVERBOUGHT : ℚ := 70

def RSI_OVERSOLD : ℚ := 30

/-! ## Association-list helpers

Python `dict` operations used by the bot: lookup with default
(`d.get(k, default)` and `d[k]` on keys known to be present), update
(`d[k] = v`), and conditional insertion (`if k not in d: d[k] = v0`).
-/

/-- Lookup `d.get(c, default)`: first binding of `c`, or the default. -/
def aget {α : Type} (l : List (String × α)) (c : String) (default : α) : α :=
  match l with
  | [] => default
  | (k, v) :: t => if k = c then v else aget t c default

/-- Update `d[c] = v`: replace the first binding of `c`, or append a new one. -/
def aset {α : Type} (l : List (String × α)) (c : String) (v : α) : List (String × α) :=
  match l with
  | [] => [(c, v)]
  | (k, w) :: t => if k = c then (k, v) :: t else (k, w) :: aset t c v

/-- Conditional insertion `if c not in d: d[c] = v0` (Python dicts insert new keys at the end). -/
def ensure {α : Type} (l : List (String × α)) (c : String) (v0 : α) : List (String × α) :=
  match l with
  | [] => [(c, v0)]
  | (k, w) :: t => if k = c then (k, w) :: t else (k, w) :: ensure t c v0

/-- Membership test `c in d`. -/
def hasKey {α : Type} (l : List (String × α)) (c : String) : Bool :=
  match l with
  | [] => false
  | (k, _) :: t => if k = c then true else hasKey t c

/-! ## Signals and per-asset strategy state -/

/-- A trading signal, one of the strings "BUY"/"SELL"/"HOLD" in the source. -/
inductive Signal : Type
  | BUY
  | SELL
  | HOLD
deriving DecidableEq

/-- Field `state["position_status"]`, one of the strings "CASH"/"HOLDING". -/
inductive PosStatus : Type
  | CASH
  | HOLDING
deriving DecidableEq

/-- The per-coin dict created by `AutonomousStrategy.get_strategy_state`
(trading_bot.py lines 517-525).  `active_strategy` is drawn by
`random.choice` at creation; the draw is passed in explicitly. -/
structure AssetState : Type where
  no : ℕ
  price_mean : ℚ
  position_status : PosStatus
  buy_price : Option ℚ
  stop_loss_price : Option ℚ
  take_profit_price : Option ℚ
  active_strategy : String
deriving DecidableEq

/-- The fresh record built inside `get_strategy_state`; `chosen` is the
result of `random.choice(self.available_strategies)`. -/
def init_asset_state (chosen : String) : AssetState :=
  { no := 0
    price_mean := 0
    position_status := PosStatus.CASH
    buy_price := none
    stop_loss_price := none
    take_profit_price := none
    active_strategy := chosen }

/-- Embeds `AutonomousStrategy.get_strategy_state` (lines 515-531), acting on the
`self.strategies` dict.  In the source `return self.strategies[coin]` is
indented inside the `if coin not in self.strategies:` branch, so the
function returns the record only on the call that creates it and falls
off the end (returning `None`) on every later call.  The companion
`price_data` / `strategy_performance` initialisations touch other dicts
and are modelled separately. -/
def get_strategy_state (strategies : List (String × AssetState)) (coin : String)
    (chosen : String) : Option AssetState × List (String × AssetState) :=
  if hasKey strategies coin then (none, strategies)
  else (some (init_asset_state chosen), strategies ++ [(coin, init_asset_state chosen)])

/-! ## Risk levels (trading_bot.py lines 488-513) -/

/-- Embeds `AutonomousStrategy.calculate_risk_levels` (lines 488-505).
`prices` is `self.price_data[coin]`.  In the source the volatility is
`np.std(np.diff(prices)/prices[:-1])`, a floating-point square root; it
enters the result only through the clamp, so it is passed here as the
parameter `vol`, and the theorems below hold for every value of it. -/
def calculate_risk_levels (prices : List ℚ) (vol : ℚ) : ℚ × ℚ :=
  if prices.length < 10 then (1/100, 3/100)
  else
    let stop_loss_pct := min (max ((3/2) * vol) (1/100)) (5/100)
    let min_take_profit := (BUYING_COMMISSION + SELLING_COMMISSION) + 1/1000
    let take_profit_pct := max ((5/2) * stop_loss_pct) min_take_profit
    (stop_loss_pct, take_profit_pct)

/-- Embeds `AutonomousStrategy.set_risk_levels` (lines 507-513), as a transform
of the asset-state record it mutates.  (In the source the record is
fetched through `get_strategy_state`; here it is passed explicitly.) -/
def set_risk_levels (buf : List ℚ) (vol : ℚ) (st : AssetState) (entry_price : ℚ) :
    AssetState :=
  let levels := calculate_risk_levels buf vol
  { st with
    buy_price := some entry_price
    stop_loss_price := some (entry_price * (1 - levels.1))
    take_profit_price := some (entry_price * (1 + levels.2)) }

/-! ## Strategy functions (trading_bot.py lines 594-766) -/

/-- Comparison `price <= state[k]` where `state[k]` is an optional price.  In the
source the field is always non-`None` on the paths that reach this
comparison (a `None` would raise `TypeError`); the `none` branch is
modelled as "no trigger". -/
def le_opt (price : ℚ) (o : Option ℚ) : Bool :=
  match o with
  | some v => decide (price ≤ v)
  | none => false

/-- Comparison `price >= state[k]` on an optional price; see `le_opt`. -/
def ge_opt (price : ℚ) (o : Option ℚ) : Bool :=
  match o with
  | some v => decide (v ≤ price)
  | none => false

/-- The state mutation shared by the strategy-rule SELL branches
(e.g. lines 615-620): status back to CASH and the three price fields
set to `None`. -/
def clear_position (st : AssetState) : AssetState :=
  { st with
    position_status := PosStatus.CASH
    buy_price := none
    stop_loss_price := none
    take_profit_price := none }

/-- Predicate: `position_status = CASH` with all of entry/stop/take-profit nulled:
what the spec requires of a state after a SELL. -/
abbrev clearedFields (st : AssetState) : Prop :=
  st.position_status = PosStatus.CASH ∧ st.buy_price = none ∧
    st.stop_loss_price = none ∧ st.take_profit_price = none

/-- The indicator dict built by `calculate_indicators` (lines 558-567). -/
structure Indicators : Type where
  rsi : ℚ
  macd : ℚ
  macd_signal : ℚ
  bb_upper : ℚ
  bb_middle : ℚ
  bb_lower : ℚ
  stoch_k : ℚ
  stoch_d : ℚ
deriving DecidableEq

/-- Embeds `AutonomousStrategy.mean_reversion_strategy` (lines 594-625).
`buf`/`vol` feed `set_risk_levels` on the BUY path. -/
def mean_reversion_strategy (lookback : ℕ) (buf : List ℚ) (vol : ℚ)
    (st : AssetState) (price : ℚ) : Signal × AssetState :=
  if st.no ≤ lookback then (Signal.HOLD, st)
  else if st.position_status = PosStatus.HOLDING ∧ le_opt price st.stop_loss_price then
    (Signal.SELL, st)
  else if st.position_status = PosStatus.HOLDING ∧ ge_opt price st.take_profit_price then
    (Signal.SELL, st)
  else if st.price_mean > price ∧ st.position_status = PosStatus.CASH then
    (Signal.BUY,
      set_risk_levels buf vol { st with position_status := PosStatus.HOLDING }
        (price * (1001/1000)))
  else if price > st.price_mean ∧ st.position_status = PosStatus.HOLDING then
    if price > (st.buy_price.getD 0) * (1003/1000) then (Signal.SELL, clear_position st)
    else (Signal.HOLD, st)
  else (Signal.HOLD, st)

/-- Embeds `AutonomousStrategy.macd_crossover_strategy` (lines 627-659). -/
def macd_crossover_strategy (lookback : ℕ) (buf : List ℚ) (vol : ℚ)
    (st : AssetState) (price : ℚ) (indicators : Option Indicators) :
    Signal × AssetState :=
  match indicators with
  | none => (Signal.HOLD, st)
  | some ind =>
    if st.no ≤ lookback then (Signal.HOLD, st)
    else if st.position_status = PosStatus.HOLDING ∧ le_opt price st.stop_loss_price then
      (Signal.SELL, st)
    else if st.position_status = PosStatus.HOLDING ∧ ge_opt price st.take_profit_price then
      (Signal.SELL, st)
    else if ind.macd > ind.macd_signal ∧ ind.rsi < RSI_OVERBOUGHT ∧
        st.position_status = PosStatus.CASH then
      (Signal.BUY,
        set_risk_levels buf vol { st with position_status := PosStatus.HOLDING }
          (price * (1001/1000)))
    else if ind.macd < ind.macd_signal ∧ ind.rsi > RSI_OVERSOLD ∧
        st.position_status = PosStatus.HOLDING then
      (Signal.SELL, clear_position st)
    else (Signal.HOLD, st)

/-- Embeds `AutonomousStrategy.rsi_strategy` (lines 661-693). -/
def rsi_strategy (lookback : ℕ) (buf : List ℚ) (vol : ℚ)
    (st : AssetState) (price : ℚ) (indicators : Option Indicators) :
    Signal × AssetState :=
  match indicators with
  | none => (Signal.HOLD, st)
  | some ind =>
    if st.no ≤ lookback then (Signal.HOLD, st)
    else if st.position_status = PosStatus.HOLDING ∧ le_opt price st.stop_loss_price then
      (Signal.SELL, st)
    else if st.position_status = PosStatus.HOLDING ∧ ge_opt price st.take_profit_price then
      (Signal.SELL, st)
    else if ind.rsi < RSI_OVERSOLD ∧ ind.stoch_k < 20 ∧ ind.stoch_k > ind.stoch_d ∧
        st.position_status = PosStatus.CASH then
      (Signal.BUY,
        set_risk_levels buf vol { st with position_status := PosStatus.HOLDING }
          (price * (1001/1000)))
    else if ind.rsi > RSI_OVERBOUGHT ∧ ind.stoch_k > 80 ∧ ind.stoch_k < ind.stoch_d ∧
        st.position_status = PosStatus.HOLDING then
      (Signal.SELL, clear_position st)
    else (Signal.HOLD, st)

/-- Embeds `AutonomousStrategy.bollinger_bands_strategy` (lines 695-727). -/
def bollinger_bands_strategy (lookback : ℕ) (buf : List ℚ) (vol : ℚ)
    (st : AssetState) (price : ℚ) (indicators : Option Indicators) :
    Signal × AssetState :=
  match indicators with
  | none => (Signal.HOLD, st)
  | some ind =>
    if st.no ≤ lookback then (Signal.HOLD, st)
    else if st.position_status = PosStatus.HOLDING ∧ le_opt price st.stop_loss_price then
      (Signal.SELL, st)
    else if st.position_status = PosStatus.HOLDING ∧ ge_opt price st.take_profit_price then
      (Signal.SELL, st)
    else if price < ind.bb_lower ∧ ind.rsi < RSI_OVERSOLD ∧
        st.position_status = PosStatus.CASH then
      (Signal.BUY,
        set_risk_levels buf vol { st with position_status := PosStatus.HOLDING }
          (price * (1001/1000)))
    else if price > ind.bb_upper ∧ ind.rsi > RSI_OVERBOUGHT ∧
        st.position_status = PosStatus.HOLDING then
      (Signal.SELL, clear_position st)
    else (Signal.HOLD, st)

/-- Embeds `AutonomousStrategy.combined_strategy` (lines 729-766).  The three
sub-strategies run on the *same* mutable record, so the state is
threaded through them in call order before the 2-of-3 vote is taken. -/
def combined_strategy (lookback : ℕ) (buf : List ℚ) (vol : ℚ)
    (st : AssetState) (price : ℚ) (indicators : Option Indicators) :
    Signal × AssetState :=
  match indicators with
  | none => (Signal.HOLD, st)
  | some ind =>
    if st.no ≤ lookback then (Signal.HOLD, st)
    else if st.position_status = PosStatus.HOLDING ∧ le_opt price st.stop_loss_price then
      (Signal.SELL, st)
    else if st.position_status = PosStatus.HOLDING ∧ ge_opt price st.take_profit_price then
      (Signal.SELL, st)
    else
      let r1 := macd_crossover_strategy lookback buf vol st price (some ind)
      let r2 := rsi_strategy lookback buf vol r1.2 price (some ind)
      let r3 := bollinger_bands_strategy lookback buf vol r2.2 price (some ind)
      let signals := [r1.1, r2.1, r3.1]
      let buy_count := signals.count Signal.BUY
      let sell_count := signals.count Signal.SELL
      if 2 ≤ buy_count ∧ r3.2.position_status = PosStatus.CASH then
        (Signal.BUY,
          set_risk_levels buf vol { r3.2 with position_status := PosStatus.HOLDING }
            (price * (1001/1000)))
      else if 2 ≤ sell_count ∧ r3.2.position_status = PosStatus.HOLDING then
        (Signal.SELL, clear_position r3.2)
      else (Signal.HOLD, r3.2)

/-! ## Adaptive strategy performance (trading_bot.py lines 768-805) -/

/-- List `self.available_strategies` (lines 480-486). -/
def available_strategies : List String :=
  ["mean_reversion", "macd_crossover", "rsi_strategy", "bollinger_bands", "combined"]

/-- The slice, for one coin, of `self.strategy_performance` and
`self.strategy_trade_count` (initialised at lines 529-530). -/
structure PerfState : Type where
  scores : List (String × ℚ)
  counts : List (String × ℕ)
deriving DecidableEq

/-- The initial maps: every strategy starts at score 0.1, count 1. -/
def init_perf_state : PerfState :=
  { scores := available_strategies.map (fun s => (s, 1/10))
    counts := available_strategies.map (fun s => (s, 1)) }

/-- Embeds `AutonomousStrategy.update_strategy_performance` (lines 768-778) for
one coin.  The Python test `if signal == "SELL" and profit_pct:` tests the
truthiness of `profit_pct`, i.e. that it is nonzero.  The decay loop at
the end multiplies the score of every strategy by 0.99. -/
def update_strategy_performance (p : PerfState) (strategy : String) (signal : Signal)
    (profit_pct : ℚ) : PerfState :=
  let p1 :=
    if signal = Signal.SELL ∧ profit_pct ≠ 0 then
      { p with
        scores := aset p.scores strategy (aget p.scores strategy 0 + profit_pct)
        counts := aset p.counts strategy (aget p.counts strategy 0 + 1) }
    else if signal = Signal.BUY then
      { p with
        scores := aset p.scores strategy (aget p.scores strategy 0 + 1/10)
        counts := aset p.counts strategy (aget p.counts strategy 0 + 1) }
    else p
  { p1 with scores := p1.scores.map (fun sv => (sv.1, sv.2 * (99/100))) }

/-- The performance-update loop of `AutonomousStrategy.generate_signal`
(lines 794-800): for the hypothetical signal of each strategy, update on a
SELL while the shared state is HOLDING with a truthy `buy_price`
(`holding` and `buy_price_truthy` capture those two reads, constant
across the loop), or on a BUY; a HOLD leaves the maps untouched.
`profit_pct` is the value computed at line 797. -/
def generate_signal_updates (p : PerfState) (signals : List (String × Signal))
    (holding : Bool) (buy_price_truthy : Bool) (profit_pct : ℚ) : PerfState :=
  match signals with
  | [] => p
  | sp :: rest =>
    let p1 :=
      if sp.2 = Signal.SELL ∧ holding = true ∧ buy_price_truthy = true then
        update_strategy_performance p sp.1 Signal.SELL profit_pct
      else if sp.2 = Signal.BUY then
        update_strategy_performance p sp.1 Signal.BUY 0
      else p
    generate_signal_updates p1 rest holding buy_price_truthy profit_pct

/-! ## Position sizing and the simulation ledger (trading_bot.py lines 828-954) -/

/-- Embeds `SimulationBot.calculate_trade_amount` (lines 853-860). -/
def calculate_trade_amount (price portfolio_value score total_score
    current_position_value : ℚ) : ℚ :=
  let score_weight := if 0 < total_score then score / total_score else 1
  let risk_amount := portfolio_value * POSITION_SIZE_PCT * score_weight
  let available_risk := max 0 (portfolio_value * MAX_PORTFOLIO_RISK - current_position_value)
  let risk_amount2 := min risk_amount available_risk
  let trade_qty := risk_amount2 / price
  let trade_qty2 := (⌊trade_qty * 10000⌋ : ℚ) / 10000
  max (1/1000) trade_qty2

/-- One trade dict as assembled in `simulate_trade` (lines 887-898 for a
BUY, 919-931 / 938-949 for a SELL); fields absent from a given action
are `none`.  Timestamps are dropped (wall-clock I/O). -/
structure TradeRec : Type where
  action : String
  coin : String
  price : ℚ
  amount : ℚ
  commission : ℚ
  cash_balance : ℚ
  cash_spent : Option ℚ
  total_cost : Option ℚ
  cash_received : Option ℚ
  net_proceeds : Option ℚ
  profit_pct : Option ℚ
deriving DecidableEq

def mkBuyRec (coin : String) (price amount cash_spent commission total_cost
    cash_balance : ℚ) : TradeRec :=
  { action := "BUY", coin := coin, price := price, amount := amount
    commission := commission, cash_balance := cash_balance
    cash_spent := some cash_spent, total_cost := some total_cost
    cash_received := none, net_proceeds := none, profit_pct := none }

def mkSellRec (coin : String) (price amount cash_received commission net_proceeds
    cash_balance : ℚ) (profit_pct : Option ℚ) : TradeRec :=
  { action := "SELL", coin := coin, price := price, amount := amount
    commission := commission, cash_balance := cash_balance
    cash_spent := none, total_cost := none
    cash_received := some cash_received, net_proceeds := some net_proceeds
    profit_pct := profit_pct }

/-- The mutable fields of `SimulationBot` that the ledger operations
touch (lines 834-839), plus the trade records it emits.  The strategy
object and the on-disk histories are separate collaborators. -/
structure Ledger : Type where
  cash : ℚ
  holdings : List (String × ℚ)
  entry_prices : List (String × List ℚ)
  trade_count : ℕ
  profitable_trades : ℕ
  trade_log : List TradeRec
deriving DecidableEq

/-- Embeds `SimulationBot.get_open_trades_count` (lines 841-843). -/
def openCount (l : List (String × ℚ)) : ℕ :=
  match l with
  | [] => 0
  | (_, v) :: t => (if 0 < v then 1 else 0) + openCount t

/-- The sum in `update_portfolio_value` (lines 845-851):
`Σ amount * prices.get(coin, 0)` over the holdings dict. -/
def holdingsValue (l : List (String × ℚ)) (prices : String → ℚ) : ℚ :=
  match l with
  | [] => 0
  | (c, v) :: t => v * prices c + holdingsValue t prices

/-- Sum `current_position_value` (line 864): only strictly positive
holdings contribute. -/
def positionValue (l : List (String × ℚ)) (prices : String → ℚ) : ℚ :=
  match l with
  | [] => 0
  | (c, v) :: t => (if 0 < v then v * prices c else 0) + positionValue t prices

/-- The trade amount `simulate_trade` computes at lines 863-865 from the
pre-state, exposed for stating hypotheses. -/
def trade_amount_of (bot : Ledger) (price score total_score : ℚ)
    (prices : String → ℚ) : ℚ :=
  calculate_trade_amount price (bot.cash + holdingsValue bot.holdings prices)
    score total_score (positionValue bot.holdings prices)

/-- Embeds `SimulationBot.simulate_trade` (lines 862-954) as a transform of the
ledger state.  File appends (`append_price_history`,
`append_trade_to_file`) become entries in `trade_log`; the calls into
the strategy object and the API client touch other objects and are out
of the ledger.  Note the source sells the *entire* holding (line 910
reassigns `trade_amount = self.holdings[coin]`), and only increments
`trade_count` on a SELL. -/
def simulate_trade (bot : Ledger) (coin : String) (signal : Signal)
    (price score total_score : ℚ) (prices : String → ℚ) : Ledger :=
  let pv := bot.cash + holdingsValue bot.holdings prices
  let cpv := positionValue bot.holdings prices
  let ta := calculate_trade_amount price pv score total_score cpv
  let h0 := ensure bot.holdings coin 0
  let e0 := ensure bot.entry_prices coin []
  if signal = Signal.BUY ∧ ta * price * (1 + BUYING_COMMISSION) ≤ bot.cash then
    if MAX_OPEN_TRADES ≤ openCount h0 then
      { bot with holdings := h0, entry_prices := e0 }
    else if cpv + ta * price ≤ pv * MAX_PORTFOLIO_RISK then
      let purchase_amount := ta * price
      let commission := purchase_amount * BUYING_COMMISSION
      let total_cost := purchase_amount + commission
      { bot with
        holdings := aset h0 coin (aget h0 coin 0 + ta)
        entry_prices := aset e0 coin (aget e0 coin [] ++ [price])
        cash := bot.cash - total_cost
        trade_log := bot.trade_log ++
          [mkBuyRec coin price ta purchase_amount commission total_cost
            (bot.cash - total_cost)] }
    else { bot with holdings := h0, entry_prices := e0 }
  else if signal = Signal.SELL ∧ ta ≤ aget h0 coin 0 then
    let held := aget h0 coin 0
    let sale_amount := held * price
    let commission := sale_amount * SELLING_COMMISSION
    let net_proceeds := sale_amount - commission
    let cash1 := bot.cash + net_proceeds
    match aget e0 coin [] with
    | [] =>
      { bot with
        holdings := aset h0 coin 0
        entry_prices := e0
        cash := cash1
        trade_count := bot.trade_count + 1
        trade_log := bot.trade_log ++
          [mkSellRec coin price held sale_amount commission net_proceeds cash1 none] }
    | entry_price :: rest =>
      let buy_cost := held * entry_price * (1 + BUYING_COMMISSION)
      let profit := net_proceeds - buy_cost
      let profit_pct := if buy_cost = 0 then 0 else (net_proceeds / buy_cost - 1) * 100
      { bot with
        holdings := aset h0 coin 0
        entry_prices := aset e0 coin rest
        cash := cash1
        trade_count := bot.trade_count + 1
        profitable_trades := bot.profitable_trades + (if 0 < profit then 1 else 0)
        trade_log := bot.trade_log ++
          [mkSellRec coin price held sale_amount commission net_proceeds cash1
            (some profit_pct)] }
  else { bot with holdings := h0, entry_prices := e0 }

/-- One BUY attempt as fed to `simulate_trade` by the main loop. -/
structure BuyReq : Type where
  coin : String
  price : ℚ
  score : ℚ
  total_score : ℚ
  prices : String → ℚ

/-- A sequence of BUY attempts applied to the ledger in order. -/
def run_buys (bot : Ledger) (reqs : List BuyReq) : Ledger :=
  match reqs with
  | [] => bot
  | r :: rest =>
    run_buys (simulate_trade bot r.coin Signal.BUY r.price r.score r.total_score r.prices)
      rest

/-! ## Concrete scenario states used by the theorems below -/

/-- A HOLDING state whose stop-loss is armed at 95 and take-profit at 110. -/
def holding_state_95 : AssetState :=
  { no := 25, price_mean := 100, position_status := PosStatus.HOLDING
    buy_price := some 100, stop_loss_price := some 95, take_profit_price := some 110
    active_strategy := "mean_reversion" }

/-- A HOLDING state in profit, out of reach of stop-loss (90) and
take-profit (200), so the mean-reversion exit rule (not the prechecks)
fires at price 105. -/
def holding_state_profit : AssetState :=
  { no := 25, price_mean := 100, position_status := PosStatus.HOLDING
    buy_price := some 100, stop_loss_price := some 90, take_profit_price := some 200
    active_strategy := "mean_reversion" }

/-- A CASH state past the warm-up period. -/
def cash_state : AssetState :=
  { no := 25, price_mean := 100, position_status := PosStatus.CASH
    buy_price := none, stop_loss_price := none, take_profit_price := none
    active_strategy := "combined" }

/-- Indicators with a bullish MACD crossover (MACD 2 > signal 1, RSI 50
below overbought) and neutral RSI/stochastic/Bollinger readings. -/
def bullish_macd_ind : Indicators :=
  { rsi := 50, macd := 2, macd_signal := 1, bb_upper := 110, bb_middle := 100
    bb_lower := 90, stoch_k := 50, stoch_d := 50 }

/-- One signal per strategy, all HOLD: an idle signal-generation cycle. -/
def all_hold_signals : List (String × Signal) :=
  available_strategies.map (fun s => (s, Signal.HOLD))

/-- A ledger holding one unit of BTC bought at 90, used for the
rejected-oversell witness. -/
def ledger_one_btc : Ledger :=
  { cash := 10000, holdings := [("BTC", 1)], entry_prices := [("BTC", [90])]
    trade_count := 3, profitable_trades := 1, trade_log := [] }

/-- The starting ledger of the end-to-end scenario: cash 10000, nothing held. -/
def ledger_start : Ledger :=
  { cash := 10000, holdings := [], entry_prices := [], trade_count := 0
    profitable_trades := 0, trade_log := [] }

/-- Price map while BTC trades at 100. -/
def btc_at_100 : String → ℚ := fun c => if c = "BTC" then 100 else 0

/-- Price map while BTC trades at 110. -/
def btc_at_110 : String → ℚ := fun c => if c = "BTC" then 110 else 0

/-- The ledger after the scenario BUY of 5 BTC at 100. -/
def ledger_after_buy : Ledger :=
  simulate_trade ledger_start ("BTC") Signal.BUY 100 1 1 btc_at_100

/-- The ledger after the scenario follow-up SELL at 110. -/
def ledger_after_sell : Ledger :=
  simulate_trade ledger_after_buy ("BTC") Signal.SELL 110 1 1 btc_at_110

/-- A single BUY attempt at price 100, used as a witness request. -/
def buy_req_btc : BuyReq :=
  { coin := "BTC", price := 100, score := 1, total_score := 1, prices := fun _ => 100 }

/-! ## Theorems -/

/-- C1: the claim says `get_strategy_state` returns the per-coin asset-state
record on every call.  In the source the `return` is indented inside the
`if coin not in self.strategies:` branch, so the first call returns the
freshly created record but every later call falls off the end of the
function and returns `None` — this theorem evaluates the code at the
failing input (two successive calls for the same coin). -/
theorem get_strategy_state_second_call_returns_none :
    (get_strategy_state [] ("BTC") ("combined")).1 = some (init_asset_state ("combined")) ∧
    (get_strategy_state (get_strategy_state [] ("BTC") ("combined")).2 ("BTC") ("combined")).1
      = none := by
  decide

/-- C7: for every price buffer and every volatility value, the pair
returned by `calculate_risk_levels` satisfies
0.01 ≤ stop_loss_pct ≤ 0.05 and take_profit_pct ≥ 2.5 × stop_loss_pct
(the short-buffer defaults (0.01, 0.03) included). -/
theorem calculate_risk_levels_bounds (prices : List ℚ) (vol : ℚ) :
    1/100 ≤ (calculate_risk_levels prices vol).1 ∧
    (calculate_risk_levels prices vol).1 ≤ 5/100 ∧
    (5/2) * (calculate_risk_levels prices vol).1 ≤ (calculate_risk_levels prices vol).2 := by
  unfold calculate_risk_levels
  split
  · norm_num
  · refine ⟨le_min (le_max_right _ _) (by norm_num), min_le_right _ _, ?_⟩
    calc (5/2) * min (max ((3/2) * vol) (1/100)) (5/100)
        ≤ max ((5/2) * min (max ((3/2) * vol) (1/100)) (5/100))
            ((BUYING_COMMISSION + SELLING_COMMISSION) + 1/1000) := le_max_left _ _

/-- C9: `calculate_trade_amount` always returns at least 0.001 — the
minimum-order floor `max(0.001, ·)` is applied last, after the risk
capping, so the function never returns a smaller (or zero) quantity,
whatever the arguments. -/
theorem calculate_trade_amount_min_quantity
    (price portfolio_value score total_score current_position_value : ℚ) :
    1/1000 ≤ calculate_trade_amount price portfolio_value score total_score
      current_position_value := by
  unfold calculate_trade_amount
  exact le_max_left _ _

/-- C2 fails as stated: with price 100, portfolio value 100, score 1,
total score 1 and current position value 50 (all positive), the risk
headroom is 0 but the returned quantity is the 0.001 minimum, whose
cost 0.1 exceeds `available_risk = max(0, 100×0.5 − 50) = 0`. -/
theorem trade_amount_cost_exceeds_available_risk :
    (0:ℚ) < 100 ∧ (0:ℚ) < 1 ∧ (0:ℚ) < 50 ∧
    max 0 (100 * MAX_PORTFOLIO_RISK - 50) <
      calculate_trade_amount 100 100 1 1 50 * 100 := by
  norm_num [calculate_trade_amount, POSITION_SIZE_PCT, MAX_PORTFOLIO_RISK]

/-- The 4-decimal floor never raises the cost above the risk budget it
was computed from: `⌊r/price × 10⁴⌋/10⁴ × price ≤ r` for positive price. -/
theorem floor_qty_cost_le (r price : ℚ) (hp : 0 < price) :
    ((⌊r / price * 10000⌋ : ℚ) / 10000) * price ≤ r := by
  have h1 : ((⌊r / price * 10000⌋ : ℚ)) ≤ r / price * 10000 := Int.floor_le _
  have h2 : ((⌊r / price * 10000⌋ : ℚ) / 10000) ≤ r / price := by linarith
  have h3 : ((⌊r / price * 10000⌋ : ℚ) / 10000) * price ≤ r / price * price :=
    mul_le_mul_of_nonneg_right h2 (le_of_lt hp)
  rwa [div_mul_cancel₀ r (ne_of_gt hp)] at h3

/-- C2 amended: for every positive price, the cost of the returned
quantity is at most `max(available_risk, 0.001 × price)` — the risk cap
holds except that the 0.001 minimum-order floor, applied after the
capping, may cost up to 0.001 × price even with zero headroom. -/
theorem trade_amount_cost_bound (price pv score total cpv : ℚ) (hp : 0 < price) :
    calculate_trade_amount price pv score total cpv * price ≤
      max (max 0 (pv * MAX_PORTFOLIO_RISK - cpv)) (1/1000 * price) := by
  simp only [calculate_trade_amount]
  set w := if 0 < total then score / total else (1:ℚ) with hw
  set avail := max 0 (pv * MAX_PORTFOLIO_RISK - cpv) with havail
  set r := min (pv * POSITION_SIZE_PCT * w) avail with hr
  set tq := ((⌊r / price * 10000⌋ : ℚ) / 10000) with htq
  rcases le_total tq (1/1000) with h | h
  · rw [max_eq_left h]
    exact le_max_right _ _
  · rw [max_eq_right h]
    refine le_trans ?_ (le_max_left _ _)
    exact le_trans (floor_qty_cost_le r price hp) (min_le_right _ _)

/-- Witness for the amended C2 bound at price 100, portfolio 10000,
score 1/1, no open positions. -/
theorem trade_amount_cost_bound_witness :
    calculate_trade_amount 100 10000 1 1 0 * 100 ≤
      max (max 0 (10000 * MAX_PORTFOLIO_RISK - 0)) (1/1000 * 100) :=
  trade_amount_cost_bound 100 10000 1 1 0 (by norm_num)

/-- In a cycle where the signal of a strategy is HOLD, the performance-update
loop leaves the maps untouched, so a cycle of five HOLDs changes nothing:
`update_strategy_performance` (and hence its decay step) is never called. -/
theorem generate_signal_updates_all_hold (p : PerfState)
    (signals : List (String × Signal)) (holding bps : Bool) (pr : ℚ)
    (hall : ∀ sp ∈ signals, sp.2 = Signal.HOLD) :
    generate_signal_updates p signals holding bps pr = p := by
  induction signals generalizing p with
  | nil => rfl
  | cons sp rest ih =>
    have hh : sp.2 = Signal.HOLD := hall sp (List.mem_cons_self _ _)
    have h1 : ¬ (sp.2 = Signal.SELL ∧ holding = true ∧ bps = true) := by
      simp [hh]
    have h2 : ¬ sp.2 = Signal.BUY := by simp [hh]
    simp only [generate_signal_updates]
    rw [if_neg h1, if_neg h2]
    exact ih p (fun x hx => hall x (List.mem_cons_of_mem _ hx))

/-- C4 fails as stated: after an idle cycle (all five signals HOLD) a
score of a strategy is still exactly its starting value 0.1, not the
decayed 0.1 × 0.99 the claim requires — the update loop of `generate_signal`
skips HOLD signals entirely, so no decay is applied on idle cycles. -/
theorem idle_cycle_applies_no_decay :
    aget (generate_signal_updates init_perf_state all_hold_signals false false 0).scores
      ("mean_reversion") 0 = 1/10 ∧
    aget (generate_signal_updates init_perf_state all_hold_signals false false 0).scores
      ("mean_reversion") 0 ≠ (1/10) * (99/100) := by
  rw [generate_signal_updates_all_hold init_perf_state all_hold_signals false false 0
    (by decide)]
  norm_num [init_perf_state, available_strategies, aget]

/-- C4 amended: strategy scores change only inside
`update_strategy_performance`, which the signal-generation cycle invokes
only for BUY signals or for SELL signals while holding with a truthy
entry price; in a cycle where the signal of every strategy is HOLD no update
(and hence no decay) occurs, so after N idle cycles every score equals
its starting value. -/
theorem idle_cycles_leave_scores_unchanged (p : PerfState)
    (signals : List (String × Signal)) (holding bps : Bool) (pr : ℚ) (n : ℕ)
    (hall : ∀ sp ∈ signals, sp.2 = Signal.HOLD) :
    (fun q => generate_signal_updates q signals holding bps pr)^[n] p = p := by
  induction n with
  | zero => rfl
  | succ k ih =>
    rw [Function.iterate_succ_apply,
      generate_signal_updates_all_hold p signals holding bps pr hall, ih]

/-- Witness: 100 idle cycles starting from the freshly initialised
performance maps leave them exactly as they started. -/
theorem idle_cycles_leave_scores_unchanged_witness :
    (fun q => generate_signal_updates q all_hold_signals false false 0)^[100]
      init_perf_state = init_perf_state :=
  idle_cycles_leave_scores_unchanged init_perf_state all_hold_signals false false 0 100
    (by decide)

/-- C10: `combined_strategy` runs its three sub-strategies on the shared
mutable asset state before counting the 2-of-3 vote.  From CASH with a
bullish MACD crossover, the inner MACD call flips the state to HOLDING
and arms entry/stop-loss/take-profit (entry 100 × 1.001 = 100.1, default
1%/3% offsets), the vote then fails (1 BUY of 3), and the call returns
HOLD — having mutated the state it was given. -/
theorem signal_hold_ne_buy : ¬ (Signal.HOLD = Signal.BUY) := by decide

theorem signal_hold_ne_sell : ¬ (Signal.HOLD = Signal.SELL) := by decide

theorem signal_buy_ne_sell : ¬ (Signal.BUY = Signal.SELL) := by decide

theorem posstatus_holding_ne_cash : ¬ (PosStatus.HOLDING = PosStatus.CASH) := by decide

theorem combined_strategy_mutates_state_on_hold :
    cash_state.position_status = PosStatus.CASH ∧
    cash_state.buy_price = none ∧
    (combined_strategy 20 [] 0 cash_state 100 (some bullish_macd_ind)).1 = Signal.HOLD ∧
    (combined_strategy 20 [] 0 cash_state 100 (some bullish_macd_ind)).2.position_status
      = PosStatus.HOLDING ∧
    (combined_strategy 20 [] 0 cash_state 100 (some bullish_macd_ind)).2.buy_price
      = some (1001/10) ∧
    (combined_strategy 20 [] 0 cash_state 100 (some bullish_macd_ind)).2.stop_loss_price
      = some ((1001/10) * (1 - 1/100)) ∧
    (combined_strategy 20 [] 0 cash_state 100 (some bullish_macd_ind)).2.take_profit_price
      = some ((1001/10) * (1 + 3/100)) := by
  norm_num [combined_strategy, macd_crossover_strategy, rsi_strategy,
    bollinger_bands_strategy, set_risk_levels, calculate_risk_levels, cash_state,
    bullish_macd_ind, le_opt, ge_opt, clear_position, RSI_OVERBOUGHT, RSI_OVERSOLD,
    List.count_cons, List.count_nil, signal_hold_ne_buy, signal_hold_ne_sell,
    signal_buy_ne_sell, posstatus_holding_ne_cash]

/-- C3 fails as stated: at price 90 a HOLDING state with stop-loss 95
makes `mean_reversion_strategy` return SELL through the stop-loss check,
and the returned state is untouched — still HOLDING with entry, stop and
take-profit all set, not cleared to CASH. -/
theorem stop_loss_sell_leaves_state_uncleared :
    (mean_reversion_strategy 20 [] 0 holding_state_95 90).1 = Signal.SELL ∧
    ¬ clearedFields (mean_reversion_strategy 20 [] 0 holding_state_95 90).2 := by
  decide

/-- Stop-loss/take-profit precheck of `mean_reversion_strategy`: past
warm-up, HOLDING, and either trigger hit — the function returns SELL
with the state it was given, unmodified. -/
theorem mean_reversion_precheck_sell (lookback : ℕ) (buf : List ℚ) (vol : ℚ)
    (st : AssetState) (price : ℚ) (hH : st.position_status = PosStatus.HOLDING)
    (hn : lookback < st.no)
    (hit : le_opt price st.stop_loss_price = true ∨ ge_opt price st.take_profit_price = true) :
    mean_reversion_strategy lookback buf vol st price = (Signal.SELL, st) := by
  unfold mean_reversion_strategy
  rw [if_neg (by omega : ¬ st.no ≤ lookback)]
  by_cases hsl : le_opt price st.stop_loss_price = true
  · rw [if_pos ⟨hH, hsl⟩]
  · rcases hit with h | h
    · exact absurd h hsl
    · rw [if_neg (fun hc => hsl hc.2), if_pos ⟨hH, h⟩]

/-- Stop-loss/take-profit precheck of `macd_crossover_strategy`. -/
theorem macd_precheck_sell (lookback : ℕ) (buf : List ℚ) (vol : ℚ)
    (st : AssetState) (price : ℚ) (ind : Indicators)
    (hH : st.position_status = PosStatus.HOLDING) (hn : lookback < st.no)
    (hit : le_opt price st.stop_loss_price = true ∨ ge_opt price st.take_profit_price = true) :
    macd_crossover_strategy lookback buf vol st price (some ind) = (Signal.SELL, st) := by
  simp only [macd_crossover_strategy]
  rw [if_neg (by omega : ¬ st.no ≤ lookback)]
  by_cases hsl : le_opt price st.stop_loss_price = true
  · rw [if_pos ⟨hH, hsl⟩]
  · rcases hit with h | h
    · exact absurd h hsl
    · rw [if_neg (fun hc => hsl hc.2), if_pos ⟨hH, h⟩]

/-- Stop-loss/take-profit precheck of `rsi_strategy`. -/
theorem rsi_precheck_sell (lookback : ℕ) (buf : List ℚ) (vol : ℚ)
    (st : AssetState) (price : ℚ) (ind : Indicators)
    (hH : st.position_status = PosStatus.HOLDING) (hn : lookback < st.no)
    (hit : le_opt price st.stop_loss_price = true ∨ ge_opt price st.take_profit_price = true) :
    rsi_strategy lookback buf vol st price (some ind) = (Signal.SELL, st) := by
  simp only [rsi_strategy]
  rw [if_neg (by omega : ¬ st.no ≤ lookback)]
  by_cases hsl : le_opt price st.stop_loss_price = true
  · rw [if_pos ⟨hH, hsl⟩]
  · rcases hit with h | h
    · exact absurd h hsl
    · rw [if_neg (fun hc => hsl hc.2), if_pos ⟨hH, h⟩]

/-- Stop-loss/take-profit precheck of `bollinger_bands_strategy`. -/
theorem bollinger_precheck_sell (lookback : ℕ) (buf : List ℚ) (vol : ℚ)
    (st : AssetState) (price : ℚ) (ind : Indicators)
    (hH : st.position_status = PosStatus.HOLDING) (hn : lookback < st.no)
    (hit : le_opt price st.stop_loss_price = true ∨ ge_opt price st.take_profit_price = true) :
    bollinger_bands_strategy lookback buf vol st price (some ind) = (Signal.SELL, st) := by
  simp only [bollinger_bands_strategy]
  rw [if_neg (by omega : ¬ st.no ≤ lookback)]
  by_cases hsl : le_opt price st.stop_loss_price = true
  · rw [if_pos ⟨hH, hsl⟩]
  · rcases hit with h | h
    · exact absurd h hsl
    · rw [if_neg (fun hc => hsl hc.2), if_pos ⟨hH, h⟩]

/-- Stop-loss/take-profit precheck of `combined_strategy`. -/
theorem combined_precheck_sell (lookback : ℕ) (buf : List ℚ) (vol : ℚ)
    (st : AssetState) (price : ℚ) (ind : Indicators)
    (hH : st.position_status = PosStatus.HOLDING) (hn : lookback < st.no)
    (hit : le_opt price st.stop_loss_price = true ∨ ge_opt price st.take_profit_price = true) :
    combined_strategy lookback buf vol st price (some ind) = (Signal.SELL, st) := by
  simp only [combined_strategy]
  rw [if_neg (by omega : ¬ st.no ≤ lookback)]
  by_cases hsl : le_opt price st.stop_loss_price = true
  · rw [if_pos ⟨hH, hsl⟩]
  · rcases hit with h | h
    · exact absurd h hsl
    · rw [if_neg (fun hc => hsl hc.2), if_pos ⟨hH, h⟩]

/-- When the stop-loss/take-profit precheck does not fire, a SELL from
`mean_reversion_strategy` comes from its exit rule, which clears the
position state. -/
theorem mean_reversion_rule_sell_clears (lookback : ℕ) (buf : List ℚ) (vol : ℚ)
    (st : AssetState) (price : ℚ)
    (hnp : ¬ (st.position_status = PosStatus.HOLDING ∧
      (le_opt price st.stop_loss_price = true ∨ ge_opt price st.take_profit_price = true))) :
    (mean_reversion_strategy lookback buf vol st price).1 = Signal.SELL →
      clearedFields (mean_reversion_strategy lookback buf vol st price).2 := by
  unfold mean_reversion_strategy
  split_ifs with h1 h2 h3 h4 h5 h6 <;> intro hs
  · exact hs.elim
  · exact absurd ⟨h2.1, Or.inl h2.2⟩ hnp
  · exact absurd ⟨h3.1, Or.inr h3.2⟩ hnp
  · exact hs.elim
  · exact ⟨rfl, rfl, rfl, rfl⟩
  · exact hs.elim
  · exact hs.elim

/-- As above, for `macd_crossover_strategy`. -/
theorem macd_rule_sell_clears (lookback : ℕ) (buf : List ℚ) (vol : ℚ)
    (st : AssetState) (price : ℚ) (ind : Indicators)
    (hnp : ¬ (st.position_status = PosStatus.HOLDING ∧
      (le_opt price st.stop_loss_price = true ∨ ge_opt price st.take_profit_price = true))) :
    (macd_crossover_strategy lookback buf vol st price (some ind)).1 = Signal.SELL →
      clearedFields (macd_crossover_strategy lookback buf vol st price (some ind)).2 := by
  simp only [macd_crossover_strategy]
  split_ifs with h1 h2 h3 h4 h5 <;> intro hs
  · exact hs.elim
  · exact absurd ⟨h2.1, Or.inl h2.2⟩ hnp
  · exact absurd ⟨h3.1, Or.inr h3.2⟩ hnp
  · exact hs.elim
  · exact ⟨rfl, rfl, rfl, rfl⟩
  · exact hs.elim

/-- As above, for `rsi_strategy`. -/
theorem rsi_rule_sell_clears (lookback : ℕ) (buf : List ℚ) (vol : ℚ)
    (st : AssetState) (price : ℚ) (ind : Indicators)
    (hnp : ¬ (st.position_status = PosStatus.HOLDING ∧
      (le_opt price st.stop_loss_price = true ∨ ge_opt price st.take_profit_price = true))) :
    (rsi_strategy lookback buf vol st price (some ind)).1 = Signal.SELL →
      clearedFields (rsi_strategy lookback buf vol st price (some ind)).2 := by
  simp only [rsi_strategy]
  split_ifs with h1 h2 h3 h4 h5 <;> intro hs
  · exact hs.elim
  · exact absurd ⟨h2.1, Or.inl h2.2⟩ hnp
  · exact absurd ⟨h3.1, Or.inr h3.2⟩ hnp
  · exact hs.elim
  · exact ⟨rfl, rfl, rfl, rfl⟩
  · exact hs.elim

/-- As above, for `bollinger_bands_strategy`. -/
theorem bollinger_rule_sell_clears (lookback : ℕ) (buf : List ℚ) (vol : ℚ)
    (st : AssetState) (price : ℚ) (ind : Indicators)
    (hnp : ¬ (st.position_status = PosStatus.HOLDING ∧
      (le_opt price st.stop_loss_price = true ∨ ge_opt price st.take_profit_price = true))) :
    (bollinger_bands_strategy lookback buf vol st price (some ind)).1 = Signal.SELL →
      clearedFields (bollinger_bands_strategy lookback buf vol st price (some ind)).2 := by
  simp only [bollinger_bands_strategy]
  split_ifs with h1 h2 h3 h4 h5 <;> intro hs
  · exact hs.elim
  · exact absurd ⟨h2.1, Or.inl h2.2⟩ hnp
  · exact absurd ⟨h3.1, Or.inr h3.2⟩ hnp
  · exact hs.elim
  · exact ⟨rfl, rfl, rfl, rfl⟩
  · exact hs.elim

/-- As above, for `combined_strategy`: a vote-driven SELL always ends in
the clearing assignment, whatever the inner calls did to the state. -/
theorem combined_rule_sell_clears (lookback : ℕ) (buf : List ℚ) (vol : ℚ)
    (st : AssetState) (price : ℚ) (ind : Indicators)
    (hnp : ¬ (st.position_status = PosStatus.HOLDING ∧
      (le_opt price st.stop_loss_price = true ∨ ge_opt price st.take_profit_price = true))) :
    (combined_strategy lookback buf vol st price (some ind)).1 = Signal.SELL →
      clearedFields (combined_strategy lookback buf vol st price (some ind)).2 := by
  simp only [combined_strategy]
  split_ifs with h1 h2 h3 h4 h5 <;> intro hs
  · exact hs.elim
  · exact absurd ⟨h2.1, Or.inl h2.2⟩ hnp
  · exact absurd ⟨h3.1, Or.inr h3.2⟩ hnp
  · exact hs.elim
  · exact ⟨rfl, rfl, rfl, rfl⟩
  · exact hs.elim

/-- C3 amended: for every strategy function, (a) a SELL triggered by the
stop-loss or take-profit check returns with the position state exactly
as it was — still HOLDING, fields intact — while (b) any SELL produced
when those checks do not fire comes from the per-strategy exit rule and
does clear the status to CASH and null the entry/stop/take-profit
fields. -/
theorem strategy_sell_state_effects (lookback : ℕ) (buf : List ℚ) (vol : ℚ)
    (st : AssetState) (price : ℚ) (ind : Indicators) :
    (st.position_status = PosStatus.HOLDING → lookback < st.no →
      (le_opt price st.stop_loss_price = true ∨ ge_opt price st.take_profit_price = true) →
      mean_reversion_strategy lookback buf vol st price = (Signal.SELL, st) ∧
      macd_crossover_strategy lookback buf vol st price (some ind) = (Signal.SELL, st) ∧
      rsi_strategy lookback buf vol st price (some ind) = (Signal.SELL, st) ∧
      bollinger_bands_strategy lookback buf vol st price (some ind) = (Signal.SELL, st) ∧
      combined_strategy lookback buf vol st price (some ind) = (Signal.SELL, st)) ∧
    (¬ (st.position_status = PosStatus.HOLDING ∧
        (le_opt price st.stop_loss_price = true ∨ ge_opt price st.take_profit_price = true)) →
      ((mean_reversion_strategy lookback buf vol st price).1 = Signal.SELL →
        clearedFields (mean_reversion_strategy lookback buf vol st price).2) ∧
      ((macd_crossover_strategy lookback buf vol st price (some ind)).1 = Signal.SELL →
        clearedFields (macd_crossover_strategy lookback buf vol st price (some ind)).2) ∧
      ((rsi_strategy lookback buf vol st price (some ind)).1 = Signal.SELL →
        clearedFields (rsi_strategy lookback buf vol st price (some ind)).2) ∧
      ((bollinger_bands_strategy lookback buf vol st price (some ind)).1 = Signal.SELL →
        clearedFields (bollinger_bands_strategy lookback buf vol st price (some ind)).2) ∧
      ((combined_strategy lookback buf vol st price (some ind)).1 = Signal.SELL →
        clearedFields (combined_strategy lookback buf vol st price (some ind)).2)) := by
  constructor
  · intro hH hn hit
    exact ⟨mean_reversion_precheck_sell lookback buf vol st price hH hn hit,
      macd_precheck_sell lookback buf vol st price ind hH hn hit,
      rsi_precheck_sell lookback buf vol st price ind hH hn hit,
      bollinger_precheck_sell lookback buf vol st price ind hH hn hit,
      combined_precheck_sell lookback buf vol st price ind hH hn hit⟩
  · intro hnp
    exact ⟨mean_reversion_rule_sell_clears lookback buf vol st price hnp,
      macd_rule_sell_clears lookback buf vol st price ind hnp,
      rsi_rule_sell_clears lookback buf vol st price ind hnp,
      bollinger_rule_sell_clears lookback buf vol st price ind hnp,
      combined_rule_sell_clears lookback buf vol st price ind hnp⟩

/-- Witness for the amended C3 at a concrete stop-loss hit (price 90,
stop 95) and a concrete exit-rule SELL (price 105, entry 100). -/
theorem strategy_sell_state_effects_witness :
    macd_crossover_strategy 20 [] 0 holding_state_95 90 (some bullish_macd_ind)
      = (Signal.SELL, holding_state_95) ∧
    ((mean_reversion_strategy 20 [] 0 holding_state_profit 105).1 = Signal.SELL →
      clearedFields (mean_reversion_strategy 20 [] 0 holding_state_profit 105).2) := by
  refine ⟨((strategy_sell_state_effects 20 [] 0 holding_state_95 90 bullish_macd_ind).1
    (by decide) (by decide) (Or.inl (by decide))).2.1, ?_⟩
  exact ((strategy_sell_state_effects 20 [] 0 holding_state_profit 105 bullish_macd_ind).2
    (by decide)).1

theorem signal_sell_ne_buy : ¬ (Signal.SELL = Signal.BUY) := by decide

/-- Key-ensuring insertion with the default value never changes any
lookup-with-default. -/
theorem aget_ensure {α : Type} (l : List (String × α)) (c x : String) (d : α) :
    aget (ensure l c d) x d = aget l x d := by
  induction l with
  | nil =>
    simp only [ensure, aget]
    split <;> rfl
  | cons head tail ih =>
    obtain ⟨k, v⟩ := head
    by_cases hk : k = c
    · simp [ensure, hk]
    · simp only [ensure, if_neg hk, aget]
      split
      · rfl
      · exact ih

/-- C5: a SELL whose computed trade amount exceeds the held quantity is
rejected with no state change — cash, every holding quantity, every
entry-price queue and the trade count are untouched. -/
theorem oversell_rejected_no_state_change (bot : Ledger) (coin : String)
    (price score total_score : ℚ) (prices : String → ℚ)
    (h : aget bot.holdings coin 0 < trade_amount_of bot price score total_score prices) :
    (simulate_trade bot coin Signal.SELL price score total_score prices).cash = bot.cash ∧
    (∀ c, aget (simulate_trade bot coin Signal.SELL price score total_score prices).holdings
      c 0 = aget bot.holdings c 0) ∧
    (∀ c, aget (simulate_trade bot coin Signal.SELL price score total_score
      prices).entry_prices c [] = aget bot.entry_prices c []) ∧
    (simulate_trade bot coin Signal.SELL price score total_score prices).trade_count
      = bot.trade_count := by
  unfold trade_amount_of at h
  have h2 : ¬ (calculate_trade_amount price (bot.cash + holdingsValue bot.holdings prices)
      score total_score (positionValue bot.holdings prices)
        ≤ aget (ensure bot.holdings coin 0) coin 0) := by
    rw [aget_ensure]
    exact not_le.mpr h
  simp only [simulate_trade]
  simp only [true_and]
  rw [if_neg h2]
  exact ⟨rfl, fun c => aget_ensure bot.holdings coin c 0,
    fun c => aget_ensure bot.entry_prices coin c [], rfl⟩

/-- Witness: a ledger holding 1 BTC, asked to SELL when the computed
trade amount is 5.05, is left unchanged. -/
theorem oversell_rejected_no_state_change_witness :
    aget ledger_one_btc.holdings ("BTC") 0 <
      trade_amount_of ledger_one_btc 100 1 1 (fun _ => 100) ∧
    (simulate_trade ledger_one_btc ("BTC") Signal.SELL 100 1 1 (fun _ => 100)).cash
      = ledger_one_btc.cash ∧
    (simulate_trade ledger_one_btc ("BTC") Signal.SELL 100 1 1 (fun _ => 100)).trade_count
      = ledger_one_btc.trade_count := by
  have h : aget ledger_one_btc.holdings ("BTC") 0 <
      trade_amount_of ledger_one_btc 100 1 1 (fun _ => 100) := by
    norm_num [ledger_one_btc, aget, trade_amount_of, calculate_trade_amount,
      holdingsValue, positionValue, POSITION_SIZE_PCT, MAX_PORTFOLIO_RISK]
  have hmain := oversell_rejected_no_state_change ledger_one_btc ("BTC") 100 1 1
    (fun _ => 100) h
  exact ⟨h, hmain.1, hmain.2.2.2⟩

/-- Inserting a zero holding for a missing key does not change the
open-position count. -/
theorem openCount_ensure (l : List (String × ℚ)) (c : String) :
    openCount (ensure l c 0) = openCount l := by
  induction l with
  | nil => simp [ensure, openCount]
  | cons head tail ih =>
    obtain ⟨k, v⟩ := head
    by_cases hk : k = c
    · simp [ensure, hk]
    · simp only [ensure, if_neg hk, openCount, ih]

/-- Updating one key raises the open-position count by at most one. -/
theorem openCount_aset_le (l : List (String × ℚ)) (c : String) (v : ℚ) :
    openCount (aset l c v) ≤ openCount l + 1 := by
  induction l with
  | nil =>
    simp only [aset, openCount]
    split_ifs <;> omega
  | cons head tail ih =>
    obtain ⟨k, w⟩ := head
    simp only [aset]
    split_ifs with hk
    · simp only [openCount]
      split_ifs <;> omega
    · simp only [openCount]
      omega

/-- One BUY attempt preserves the open-position bound: an executed BUY
requires the count to be strictly below the maximum first, and adds at
most one position. -/
theorem simulate_buy_open_le (bot : Ledger) (coin : String)
    (price score total_score : ℚ) (prices : String → ℚ)
    (h : openCount bot.holdings ≤ MAX_OPEN_TRADES) :
    openCount (simulate_trade bot coin Signal.BUY price score total_score prices).holdings
      ≤ MAX_OPEN_TRADES := by
  simp only [simulate_trade]
  split_ifs with hA hOpen hRisk hB
  · rw [openCount_ensure]
    exact h
  · refine le_trans (openCount_aset_le _ _ _) ?_
    rw [openCount_ensure] at hOpen ⊢
    omega
  · rw [openCount_ensure]
    exact h
  · exact absurd hB.1 (by decide)
  · rw [openCount_ensure]
    exact h

/-- C6: over any sequence of BUY attempts, the open-position count never
exceeds `MAX_OPEN_TRADES` once it starts within the bound. -/
theorem open_positions_bounded_over_buys (bot : Ledger) (reqs : List BuyReq)
    (h : openCount bot.holdings ≤ MAX_OPEN_TRADES) :
    openCount (run_buys bot reqs).holdings ≤ MAX_OPEN_TRADES := by
  induction reqs generalizing bot with
  | nil => exact h
  | cons r rest ih =>
    simp only [run_buys]
    exact ih _ (simulate_buy_open_le bot r.coin r.price r.score r.total_score r.prices h)

/-- Witness: starting from an empty ledger, a BUY attempt keeps the
open-position count within the maximum. -/
theorem open_positions_bounded_over_buys_witness :
    openCount ledger_start.holdings ≤ MAX_OPEN_TRADES ∧
    openCount (run_buys ledger_start [buy_req_btc]).holdings ≤ MAX_OPEN_TRADES :=
  ⟨by decide, open_positions_bounded_over_buys ledger_start [buy_req_btc] (by decide)⟩

/-- C8: the end-to-end scenario.  From cash 10000 and no holdings, the
computed BUY quantity at price 100 (score weight 1) is 5; the executed
BUY leaves cash 10000 − 5×100×1.001 = 9499.5, holdings 5, entry queue
[100].  The subsequent SELL at 110 sells the whole holding: sale 550,
commission 0.55, net 549.45, cash 9499.5 + 549.45 = 10048.95, and the
recorded profit percentage is (549.45/(5×100×1.001) − 1) × 100 = 890/91,
between 9.78 and 9.79 percent. -/
theorem buy_then_sell_scenario :
    ledger_after_buy.cash = 18999/2 ∧
    aget ledger_after_buy.holdings ("BTC") 0 = 5 ∧
    aget ledger_after_buy.entry_prices ("BTC") [] = [100] ∧
    ledger_after_sell.cash = 1004895/100 ∧
    aget ledger_after_sell.holdings ("BTC") 0 = 0 ∧
    ledger_after_sell.trade_count = 1 ∧
    ledger_after_sell.trade_log =
      [mkBuyRec ("BTC") 100 5 500 (1/2) (1001/2) (18999/2),
        mkSellRec ("BTC") 110 5 550 (11/20) (10989/20) (1004895/100)
          (some ((10989/20 / (1001/2) - 1) * 100))] ∧
    ((10989:ℚ)/20 / (1001/2) - 1) * 100 = 890/91 ∧
    (978:ℚ)/100 < 890/91 ∧ (890:ℚ)/91 < 979/100 := by
  have hbuy : ledger_after_buy =
      { cash := 18999/2, holdings := [("BTC", 5)], entry_prices := [("BTC", [100])]
        trade_count := 0, profitable_trades := 0
        trade_log := [mkBuyRec ("BTC") 100 5 500 (1/2) (1001/2) (18999/2)] } := by
    norm_num [ledger_after_buy, ledger_start, btc_at_100, simulate_trade,
      calculate_trade_amount, holdingsValue, positionValue, ensure, aget, aset,
      openCount, POSITION_SIZE_PCT, MAX_PORTFOLIO_RISK, BUYING_COMMISSION,
      SELLING_COMMISSION, MAX_OPEN_TRADES, mkBuyRec, Ledger.mk.injEq,
      TradeRec.mk.injEq, List.cons.injEq, Prod.mk.injEq]
  have hsell : ledger_after_sell =
      { cash := 200979/20, holdings := [("BTC", 0)], entry_prices := [("BTC", [])]
        trade_count := 1, profitable_trades := 1
        trade_log := [mkBuyRec ("BTC") 100 5 500 (1/2) (1001/2) (18999/2),
          mkSellRec ("BTC") 110 5 550 (11/20) (10989/20) (200979/20) (some (890/91))] } := by
    unfold ledger_after_sell
    rw [hbuy]
    norm_num [simulate_trade, calculate_trade_amount, holdingsValue, positionValue,
      ensure, aget, aset, openCount, btc_at_110, POSITION_SIZE_PCT, MAX_PORTFOLIO_RISK,
      BUYING_COMMISSION, SELLING_COMMISSION, MAX_OPEN_TRADES, mkBuyRec, mkSellRec,
      signal_sell_ne_buy, Ledger.mk.injEq, TradeRec.mk.injEq, List.cons.injEq,
      Prod.mk.injEq]
  rw [hbuy, hsell]
  norm_num [mkBuyRec, mkSellRec, aget, TradeRec.mk.injEq]
